import Mathlib

/-!
Shallow embedding of the reconciliation core of the Real-time-Chat-Application
client (src/src/components/ChatWindow.tsx, src/src/components/ChatList.tsx) and
of the `messages` schema constraint
(src/supabase/migrations/20250117122041_dry_gate.sql).

Identifiers and timestamps are modelled as `Nat` (UUIDs / ISO timestamps are
opaque, only equality resp. order matters).  Strings stay `String`.  The
backend-as-a-service is an opaque collaborator: its responses (create result,
upload result, fetched rows) are inputs to the handlers, and the network calls
a handler issues are recorded as an explicit `BackendCall` list.
-/

/-- `Message` row, as in `export type Message` of src/src/App.tsx and the
`messages` table of the migration: `content` and `image_url` are nullable. -/
structure Message where
  id : Nat
  sender_id : Nat
  receiver_id : Nat
  content : Option String
  image_url : Option String
  read : Bool
  created_at : Nat
deriving DecidableEq, Repr

/-- Insert payload sent to `supabase.from('messages').insert([...])`: only the
columns the client actually passes; omitted columns are `none`. -/
structure MessageInsert where
  sender_id : Nat
  receiver_id : Nat
  content : Option String
  image_url : Option String
deriving DecidableEq, Repr

/-- A network call the client issues against the backend. -/
inductive BackendCall where
  | createMessage (ins : MessageInsert)
  | uploadImage (path : String)
  | markReadOne (id : Nat)
  | markReadBatch (ids : List Nat)
deriving DecidableEq, Repr

/-- Local state of one `ChatWindow`: the visible `messages` sequence, the
`newMessage` input field, and the `alert`s surfaced so far. -/
structure ChatState where
  messages : List Message
  newMessage : String
  alerts : List String
deriving DecidableEq, Repr

/-- JavaScript `String.prototype.trim()` (strip whitespace at both ends),
modelled over the character list. -/
def isWs (c : Char) : Bool :=
  c == ' ' || c == '\t' || c == '\n' || c == '\r'

/-- `s.trim()` of the source, as a pure function on `String`. -/
def trimStr (s : String) : String :=
  ⟨((s.data.dropWhile isWs).reverse.dropWhile isWs).reverse⟩

/-- The relevance check of the ChatWindow insert-notification handler
(ChatWindow.tsx lines 38–43): the payload matches the pair
{currentUser, selectedUser} in either direction. -/
def relevant (cu su : Nat) (m : Message) : Bool :=
  (m.sender_id == cu && m.receiver_id == su) ||
    (m.sender_id == su && m.receiver_id == cu)

/-- The `setMessages` update of the insert-notification handler
(ChatWindow.tsx lines 44–50): if irrelevant, unchanged; if an entry with the
payload's id is already present, unchanged; otherwise append. -/
def handleInsert (cu su : Nat) (msgs : List Message) (m : Message) : List Message :=
  if relevant cu su m then
    if msgs.any (fun x => x.id == m.id) then msgs else msgs ++ [m]
  else msgs

/-- The read-flag side effect of the insert-notification handler
(ChatWindow.tsx lines 53–61): inside the relevance check, if the payload's
receiver is the current user, issue `update({read:true}).eq('id', m.id)`. -/
def insertReadUpdate (cu su : Nat) (m : Message) : Option Nat :=
  if relevant cu su m then
    if m.receiver_id == cu then some m.id else none
  else none

/-- Phase 1 of `handleSendMessage` (ChatWindow.tsx lines 108–123), after the
guard has passed: append the optimistic message (temporary id `tid`, content
the trimmed input, local clock `now`) and clear the input. -/
def sendOptimistic (cu su tid now : Nat) (st : ChatState) : ChatState :=
  { st with
    messages := st.messages ++
      [{ id := tid, sender_id := cu, receiver_id := su,
         content := some (trimStr st.newMessage), image_url := none,
         read := false, created_at := now }],
    newMessage := "" }

/-- Phase 2 of `handleSendMessage` (ChatWindow.tsx lines 138–153): on create
error, filter out the temp-id entry, restore the input to the submitted
content, surface the failure alert; on create success `data`, rewrite the
temp-id entry to `data`. -/
def resolveCreate (tid : Nat) (content : String) (outcome : Except Unit Message)
    (st : ChatState) : ChatState :=
  match outcome with
  | .error _ =>
    { st with
      messages := st.messages.filter (fun m => !(m.id == tid)),
      newMessage := content,
      alerts := st.alerts ++ ["Failed to send message. Please try again."] }
  | .ok data =>
    { st with
      messages := st.messages.map (fun m => if m.id == tid then data else m) }

/-- The whole `handleSendMessage` (ChatWindow.tsx lines 104–154) with the
create outcome as input and no notification interleaved between the optimistic
append and the resolution.  Returns the new state and the backend calls
issued.  If the trimmed input is empty the handler returns at once. -/
def handleSendMessage (cu su tid now : Nat) (st : ChatState)
    (outcome : Except Unit Message) : ChatState × List BackendCall :=
  if trimStr st.newMessage = "" then (st, [])
  else
    (resolveCreate tid (trimStr st.newMessage) outcome (sendOptimistic cu su tid now st),
     [BackendCall.createMessage
       { sender_id := cu, receiver_id := su,
         content := some (trimStr st.newMessage), image_url := none }])

/-- Number of visible entries bearing identifier `i`. -/
def countId (msgs : List Message) (i : Nat) : Nat :=
  (msgs.filter (fun m => m.id == i)).length

/-- `created_at` ascending, the order of the `fetchMessages` query. -/
def leCreated (a b : Message) : Prop := a.created_at ≤ b.created_at

/-- `created_at` descending, the order of the `fetchChats` query. -/
def geCreated (a b : Message) : Prop := b.created_at ≤ a.created_at

instance : DecidableRel leCreated := fun a b => Nat.decLe a.created_at b.created_at

instance : DecidableRel geCreated := fun a b => Nat.decLe b.created_at a.created_at

instance : IsTotal Message leCreated := ⟨fun a b => Nat.le_total a.created_at b.created_at⟩

instance : IsTrans Message leCreated := ⟨fun _ _ _ => Nat.le_trans⟩

instance : IsTotal Message geCreated := ⟨fun a b => Nat.le_total b.created_at a.created_at⟩

instance : IsTrans Message geCreated := ⟨fun _ _ _ h h' => Nat.le_trans h' h⟩

/-- `order('created_at', { ascending: true })` of the backend, modelled as a
stable sort by `created_at`. -/
def sortAsc (l : List Message) : List Message :=
  List.insertionSort leCreated l

/-- `order('created_at', { ascending: false })` of the backend. -/
def sortDesc (l : List Message) : List Message :=
  List.insertionSort geCreated l

/-- The query of `fetchMessages` (ChatWindow.tsx lines 74–84): all rows of the
store matching the pair in either direction, ordered by `created_at`
ascending; the result becomes the visible sequence. -/
def fetchVisible (cu su : Nat) (store : List Message) : List Message :=
  sortAsc (store.filter (relevant cu su))

/-- `receiver_id === currentUser.id && !read` (ChatWindow.tsx lines 87–89). -/
def unreadForMe (cu : Nat) (l : List Message) : List Message :=
  l.filter (fun m => m.receiver_id == cu && !m.read)

/-- The ids passed to the batch `update({read:true}).in('id', ...)` of
`fetchMessages` (ChatWindow.tsx lines 90–98): ids of the fetched rows that are
addressed to the current user and still unread. -/
def fetchUpdateIds (cu su : Nat) (store : List Message) : List Nat :=
  (unreadForMe cu (fetchVisible cu su store)).map (fun m => m.id)

/-- Effect on the store of `update({read:true}).in('id', ids)`: every row whose
id is in `ids` gets `read := true`; all other rows are untouched. -/
def markRead (ids : List Nat) (store : List Message) : List Message :=
  store.map (fun m => if ids.contains m.id then { m with read := true } else m)

/-- `sender_id.eq.cu` or `receiver_id.eq.cu`: the query filter of `fetchChats`
(ChatList.tsx line 45). -/
def involvesMe (cu : Nat) (m : Message) : Bool :=
  m.sender_id == cu || m.receiver_id == cu

/-- The `messages` result of `fetchChats` (ChatList.tsx lines 42–46): all rows
involving the current user, newest first. -/
def myMessages (cu : Nat) (store : List Message) : List Message :=
  sortDesc (store.filter (involvesMe cu))

/-- `userMessages` of `fetchChats` (ChatList.tsx lines 67–71): the fetched
rows filtered to the pair with counterpart `c`, still newest first. -/
def userMessages (cu c : Nat) (store : List Message) : List Message :=
  (myMessages cu store).filter (relevant cu c)

/-- `lastMessage` surfaced for counterpart `c` (ChatList.tsx line 79):
`userMessages[0] || null`. -/
def lastMessage (cu c : Nat) (store : List Message) : Option Message :=
  (userMessages cu c store).head?

/-- `unreadCount` surfaced for counterpart `c` (ChatList.tsx lines 73–75). -/
def unreadCount (cu c : Nat) (store : List Message) : Nat :=
  (unreadForMe cu (userMessages cu c store)).length

/-- A file handed to `handleImageUpload`: `name`, MIME `type`, `size` in
bytes. -/
structure UploadFile where
  name : String
  ftype : String
  size : Nat
deriving DecidableEq, Repr

/-- `file.type.split('/')[0]` (ChatWindow.tsx line 161): the MIME type's part
before the first slash. -/
def mimeMain (s : String) : String :=
  ⟨s.data.takeWhile (fun c => !(c == '/'))⟩

/-- `file.name.split('.').pop()?.toLowerCase() || ''` (ChatWindow.tsx
line 176): the lowercased segment after the last dot of the file name, the
whole name when it has no dot. -/
def extOf (s : String) : String :=
  ⟨(if s.data.contains '.'
      then (s.data.reverse.takeWhile (fun c => !(c == '.'))).reverse
      else s.data).map Char.toLower⟩

/-- `filePath = currentUser.id + '/' + Date.now() + '.' + fileExt`
(ChatWindow.tsx lines 176–178). -/
def uploadPath (cu now : Nat) (f : UploadFile) : String :=
  toString cu ++ "/" ++ toString now ++ "." ++ extOf f.name

/-- `handleImageUpload` (ChatWindow.tsx lines 156–224), with the backend's
upload outcome (`uploadErr`) and `getPublicUrl` result (`publicUrl`) as
inputs.  Returns the backend calls issued and the alerts surfaced: type check,
then 5 MiB size check, both purely local; then upload; then create with
`image_url` and no `content`. -/
def handleImageUpload (cu su now : Nat) (f : UploadFile) (uploadErr : Bool)
    (publicUrl : String) : List BackendCall × List String :=
  if !(mimeMain f.ftype == "image") then
    ([], ["Please upload an image file"])
  else if f.size > 5 * 1024 * 1024 then
    ([], ["File size must be less than 5MB"])
  else if uploadErr then
    ([BackendCall.uploadImage (uploadPath cu now f)],
     ["Failed to upload image. Please try again."])
  else if publicUrl = "" then
    ([BackendCall.uploadImage (uploadPath cu now f)],
     ["Failed to upload image. Please try again."])
  else
    ([BackendCall.uploadImage (uploadPath cu now f),
      BackendCall.createMessage
        { sender_id := cu, receiver_id := su,
          content := none, image_url := some publicUrl }],
     [])

/-! ### Concrete values used by witnesses and counterexamples -/

def mA : Message :=
  { id := 5, sender_id := 1, receiver_id := 2, content := some "hi",
    image_url := none, read := false, created_at := 11 }

/-- A message not involving the pair {1, 2}. -/
def mX : Message :=
  { id := 7, sender_id := 3, receiver_id := 4, content := some "yo",
    image_url := none, read := false, created_at := 12 }

/-- An input field holding only whitespace. -/
def stWs : ChatState := { messages := [mA], newMessage := " \t ", alerts := [] }

/-- An input field holding "hi" over an empty conversation. -/
def stHi : ChatState := { messages := [], newMessage := "hi", alerts := [] }

/-- An input field holding " hi " over a one-message conversation. -/
def stPre : ChatState := { messages := [mA], newMessage := " hi ", alerts := [] }

/-- The server row the create call of the C1 race returns: id 5. -/
def serverHi : Message :=
  { id := 5, sender_id := 1, receiver_id := 2, content := some "hi",
    image_url := none, read := false, created_at := 11 }

/-- The race of C1: user 1 sends "hi" to user 2; the optimistic entry gets
temporary id 100 at local time 10.  State after the optimistic append. -/
def c1_afterSend : ChatState := sendOptimistic 1 2 100 10 stHi

/-- Order A of the C1 race: create response first, then the insert
notification for the same row. -/
def c1_orderA : List Message :=
  handleInsert 1 2
    (resolveCreate 100 "hi" (Except.ok serverHi) c1_afterSend).messages serverHi

/-- Order B of the C1 race: the insert notification first, then the create
response. -/
def c1_orderB : List Message :=
  (resolveCreate 100 "hi" (Except.ok serverHi)
    { c1_afterSend with
      messages := handleInsert 1 2 c1_afterSend.messages serverHi }).messages

/-- Earlier-created of the two C2 messages. -/
def c2_m1 : Message :=
  { id := 21, sender_id := 1, receiver_id := 2, content := some "first",
    image_url := none, read := false, created_at := 1 }

/-- Later-created of the two C2 messages. -/
def c2_m2 : Message :=
  { id := 22, sender_id := 2, receiver_id := 1, content := some "second",
    image_url := none, read := false, created_at := 2 }

/-- The insert payload of the text send of `stHi`. -/
def c5_ins : MessageInsert :=
  { sender_id := 1, receiver_id := 2, content := some "hi", image_url := none }

/-- The insert payload of an image send with public URL "u". -/
def c5_insImg : MessageInsert :=
  { sender_id := 1, receiver_id := 2, content := none, image_url := some "u" }

/-- A valid 2 MiB JPEG attachment. -/
def f2mb : UploadFile :=
  { name := "pic.jpg", ftype := "image/jpeg", size := 2 * 1024 * 1024 }

/-- An oversized 6 MiB attachment. -/
def f6mb : UploadFile :=
  { name := "big.jpg", ftype := "image/jpeg", size := 6 * 1024 * 1024 }

/-! ### Facts about the sort model -/

theorem perm_sortAsc (l : List Message) : List.Perm (sortAsc l) l :=
  List.perm_insertionSort leCreated l

theorem perm_sortDesc (l : List Message) : List.Perm (sortDesc l) l :=
  List.perm_insertionSort geCreated l

theorem sorted_sortAsc (l : List Message) : List.Sorted leCreated (sortAsc l) :=
  List.sorted_insertionSort leCreated l

theorem sorted_sortDesc (l : List Message) : List.Sorted geCreated (sortDesc l) :=
  List.sorted_insertionSort geCreated l

/-- Appending a message no earlier than every visible one keeps the sequence
ascending. -/
theorem sorted_append_single {l : List Message} {m : Message}
    (hs : List.Sorted leCreated l) (hb : ∀ x ∈ l, x.created_at ≤ m.created_at) :
    List.Sorted leCreated (l ++ [m]) := by
  refine List.pairwise_append.mpr ⟨hs, List.pairwise_singleton _ _, ?_⟩
  intro a ha b hbm
  rcases List.mem_singleton.mp hbm with rfl
  exact hb a ha

/-- The head of a filtered descending-sorted list is a maximal element of the
original list among those passing the filter. -/
theorem head_filter_sortedDesc (p : Message → Bool) {l : List Message}
    (hs : List.Sorted geCreated l) {m : Message}
    (hm : (l.filter p).head? = some m) :
    m ∈ l ∧ p m = true ∧ ∀ x ∈ l, p x = true → x.created_at ≤ m.created_at := by
  have hs' : List.Sorted geCreated (l.filter p) :=
    List.Pairwise.sublist (List.filter_sublist l) hs
  rcases hfp : l.filter p with _ | ⟨a, t⟩
  · rw [hfp] at hm; cases hm
  · rw [hfp] at hm
    have ha : a = m := by simpa using hm
    subst ha
    rw [hfp] at hs'
    have hmem : a ∈ l.filter p := by rw [hfp]; exact List.mem_cons_self _ _
    have hml := List.mem_filter.mp hmem
    refine ⟨hml.1, hml.2, ?_⟩
    intro x hx hpx
    have hxf : x ∈ l.filter p := List.mem_filter.mpr ⟨hx, hpx⟩
    rw [hfp] at hxf
    rcases List.mem_cons.mp hxf with h | h
    · subst h; exact Nat.le_refl _
    · exact List.rel_of_sorted_cons hs' x h

/-! ### Claim theorems -/

/-- C3: delivering the same insert push notification twice to a conversation
view is idempotent: if an entry with the payload's identifier is already
present the sequence is returned unchanged, and processing a notification a
second time never duplicates the visible entry. -/
theorem c3_insert_idempotent (cu su : Nat) (msgs : List Message) (m : Message) :
    (msgs.any (fun x => x.id == m.id) = true → handleInsert cu su msgs m = msgs)
    ∧ handleInsert cu su (handleInsert cu su msgs m) m = handleInsert cu su msgs m := by
  constructor
  · intro h
    by_cases hrel : relevant cu su m = true
    · simp [handleInsert, hrel, h]
    · simp [handleInsert, hrel]
  · by_cases hrel : relevant cu su m = true
    · by_cases hany : msgs.any (fun x => x.id == m.id) = true
      · simp [handleInsert, hrel, hany]
      · simp [handleInsert, hrel, hany, List.any_append]
    · simp [handleInsert, hrel]

theorem c3_insert_idempotent_witness :
    ([mA].any (fun x => x.id == mA.id) = true) ∧ handleInsert 1 2 [mA] mA = [mA] :=
  ⟨by decide, (c3_insert_idempotent 1 2 [mA] mA).1 (by decide)⟩

/-- C9: an insert push notification whose payload does not match the pair
{current user, selected counterpart} in either direction leaves the visible
sequence unchanged and issues no read-flag update. -/
theorem c9_irrelevant_frame (cu su : Nat) (msgs : List Message) (m : Message)
    (h : relevant cu su m = false) :
    handleInsert cu su msgs m = msgs ∧ insertReadUpdate cu su m = none := by
  constructor <;> simp [handleInsert, insertReadUpdate, h]

theorem c9_irrelevant_frame_witness :
    relevant 1 2 mX = false
    ∧ (handleInsert 1 2 [mA] mX = [mA] ∧ insertReadUpdate 1 2 mX = none) :=
  ⟨by decide, c9_irrelevant_frame 1 2 [mA] mX (by decide)⟩

/-- C10: submitting the message form when the trimmed input is empty is a
no-op: the state (visible sequence, input field, alerts) is unchanged and no
backend call is issued. -/
theorem c10_whitespace_noop (cu su tid now : Nat) (st : ChatState)
    (outcome : Except Unit Message) (h : trimStr st.newMessage = "") :
    handleSendMessage cu su tid now st outcome = (st, []) := by
  simp [handleSendMessage, h]

theorem c10_whitespace_noop_witness :
    trimStr stWs.newMessage = ""
    ∧ handleSendMessage 1 2 100 10 stWs (Except.error ()) = (stWs, []) :=
  ⟨by decide, c10_whitespace_noop 1 2 100 10 stWs (Except.error ()) (by decide)⟩

/-- C1: a message sent through the optimistic path whose create succeeds must
end in exactly one visible entry with the server-assigned identifier after
both the create-response handler and the insert-notification handler have
run, in either order.  The code satisfies this only when the create response
is processed first: when the insert notification for the server row arrives
first, its dedup check compares against the server id while only the
temporary-id entry is visible, so the row is appended, and the create
response then also rewrites the temporary entry to the server row — two
visible entries with id 5. -/
theorem c1_duplicate_when_notification_first :
    countId c1_orderA 5 = 1 ∧ countId c1_orderB 5 = 2 := by decide

/-- C2, counterexample: the insert-notification handler appends in arrival
order, so delivering the later-created message first leaves the visible
sequence out of creation-timestamp order. -/
theorem c2_out_of_order_arrival_not_sorted :
    handleInsert 1 2 (handleInsert 1 2 [] c2_m2) c2_m1 = [c2_m2, c2_m1]
    ∧ ¬ List.Sorted leCreated [c2_m2, c2_m1] := by
  constructor <;> decide

/-- C2, amended: the initial fetch renders the pair's history sorted by
creation timestamp ascending, and an insert notification preserves ascending
order whenever the delivered message's creation timestamp is at least that of
every visible entry; a message delivered out of timestamp order is appended
in arrival order, so the visible sequence follows arrival order instead. -/
theorem c2_order_preservation (cu su : Nat) (store : List Message)
    (msgs : List Message) (m : Message) :
    List.Sorted leCreated (fetchVisible cu su store)
    ∧ (List.Sorted leCreated msgs →
        (∀ x ∈ msgs, x.created_at ≤ m.created_at) →
        List.Sorted leCreated (handleInsert cu su msgs m)) := by
  refine ⟨sorted_sortAsc _, fun hs hb => ?_⟩
  unfold handleInsert
  split
  · split
    · exact hs
    · exact sorted_append_single hs hb
  · exact hs

/-- Removing the temp-id entry from a sequence that is the pre-send sequence
plus the optimistic entry restores the pre-send sequence, provided the temp
id is fresh. -/
theorem filter_ne_append_tid (l : List Message) (o : Message) (tid : Nat)
    (hid : ∀ x ∈ l, x.id ≠ tid) (ho : o.id = tid) :
    (l ++ [o]).filter (fun m => !(m.id == tid)) = l := by
  rw [List.filter_append]
  have h1 : l.filter (fun m => !(m.id == tid)) = l :=
    List.filter_eq_self.mpr (fun x hx => by simp [hid x hx])
  have h2 : [o].filter (fun m => !(m.id == tid)) = [] := by simp [ho]
  simp [h1, h2]

/-- C4: when the create request of an optimistic send fails, the handler
removes exactly the pending-local entry — restoring the visible sequence to
its pre-send value and touching no other entry — repopulates the input field
with the submitted text, and surfaces the failure notice, having issued only
the one create call. -/
theorem c4_send_failure_rollback (cu su tid now : Nat) (st : ChatState)
    (hne : trimStr st.newMessage ≠ "")
    (hid : ∀ x ∈ st.messages, x.id ≠ tid) :
    handleSendMessage cu su tid now st (Except.error ()) =
      ({ messages := st.messages,
         newMessage := trimStr st.newMessage,
         alerts := st.alerts ++ ["Failed to send message. Please try again."] },
       [BackendCall.createMessage
         { sender_id := cu, receiver_id := su,
           content := some (trimStr st.newMessage), image_url := none }]) := by
  have h := filter_ne_append_tid st.messages
    { id := tid, sender_id := cu, receiver_id := su,
      content := some (trimStr st.newMessage), image_url := none,
      read := false, created_at := now } tid hid rfl
  simp [handleSendMessage, hne, resolveCreate, sendOptimistic, h]

theorem c4_send_failure_rollback_witness :
    (trimStr stPre.newMessage ≠ "" ∧ ∀ x ∈ stPre.messages, x.id ≠ 100)
    ∧ handleSendMessage 1 2 100 10 stPre (Except.error ()) =
        ({ messages := stPre.messages,
           newMessage := trimStr stPre.newMessage,
           alerts := stPre.alerts ++ ["Failed to send message. Please try again."] },
         [BackendCall.createMessage
           { sender_id := 1, receiver_id := 2,
             content := some (trimStr stPre.newMessage), image_url := none }]) :=
  ⟨⟨by decide, by decide⟩,
   c4_send_failure_rollback 1 2 100 10 stPre (by decide) (by decide)⟩

/-- C5: every message-create the client issues satisfies the content-or-image
invariant: the text path only issues a create when the trimmed input is
non-empty, and then with that text as content; the image path only issues a
create carrying a non-empty image reference; a create with neither body nor
image is never issued. -/
theorem c5_content_or_image (cu su tid now : Nat) (st : ChatState)
    (outcome : Except Unit Message) (f : UploadFile) (uerr : Bool)
    (purl : String) (ins : MessageInsert) :
    (BackendCall.createMessage ins ∈ (handleSendMessage cu su tid now st outcome).2 →
       ins.content = some (trimStr st.newMessage) ∧ trimStr st.newMessage ≠ ""
         ∧ (ins.content.isSome || ins.image_url.isSome) = true)
    ∧ (BackendCall.createMessage ins ∈ (handleImageUpload cu su now f uerr purl).1 →
       ins.image_url = some purl ∧ purl ≠ ""
         ∧ (ins.content.isSome || ins.image_url.isSome) = true) := by
  constructor
  · intro hmem
    by_cases hne : trimStr st.newMessage = ""
    · simp [handleSendMessage, hne] at hmem
    · simp [handleSendMessage, hne] at hmem
      subst hmem
      simp [hne]
  · intro hmem
    unfold handleImageUpload at hmem
    split at hmem
    · simp at hmem
    · split at hmem
      · simp at hmem
      · split at hmem
        · simp at hmem
        · split at hmem
          · simp at hmem
          · rename_i hpurl
            simp at hmem
            subst hmem
            simp [hpurl]

theorem c5_content_or_image_witness :
    (BackendCall.createMessage c5_ins ∈
        (handleSendMessage 1 2 100 10 stHi (Except.error ())).2
      ∧ (c5_ins.content = some (trimStr stHi.newMessage)
          ∧ trimStr stHi.newMessage ≠ ""
          ∧ (c5_ins.content.isSome || c5_ins.image_url.isSome) = true))
    ∧ (BackendCall.createMessage c5_insImg ∈
        (handleImageUpload 1 2 10 f2mb false "u").1
      ∧ (c5_insImg.image_url = some "u" ∧ ("u" : String) ≠ ""
          ∧ (c5_insImg.content.isSome || c5_insImg.image_url.isSome) = true)) :=
  ⟨⟨by decide,
    (c5_content_or_image 1 2 100 10 stHi (Except.error ()) f2mb false "u" c5_ins).1
      (by decide)⟩,
   ⟨by decide,
    (c5_content_or_image 1 2 100 10 stHi (Except.error ()) f2mb false "u" c5_insImg).2
      (by decide)⟩⟩

/-- A message of the store that matches the pair and is unread-to-me has its
id in the batch-update id list computed by `fetchMessages`. -/
theorem mem_fetchUpdateIds (cu su : Nat) (store : List Message) (m : Message)
    (hm : m ∈ store) (hrel : relevant cu su m = true)
    (hq : (m.receiver_id == cu && !m.read) = true) :
    m.id ∈ fetchUpdateIds cu su store := by
  unfold fetchUpdateIds unreadForMe fetchVisible
  refine List.mem_map.mpr ⟨m, ?_, rfl⟩
  refine List.mem_filter.mpr ⟨?_, hq⟩
  exact (perm_sortAsc _).mem_iff.mpr (List.mem_filter.mpr ⟨hm, hrel⟩)

/-- The batch-update ids of `fetchMessages` are, up to order, exactly the ids
of the store's pair messages that are unread-to-me. -/
theorem fetchUpdateIds_perm (cu su : Nat) (store : List Message) :
    List.Perm (fetchUpdateIds cu su store)
      ((store.filter (fun m => relevant cu su m && (m.receiver_id == cu && !m.read))).map
        (fun m => m.id)) := by
  unfold fetchUpdateIds unreadForMe fetchVisible
  refine List.Perm.map _ ?_
  have h1 := (perm_sortAsc (store.filter (relevant cu su))).filter
    (fun m => m.receiver_id == cu && !m.read)
  rw [List.filter_filter] at h1
  have h2 : store.filter (fun a => (a.receiver_id == cu && !a.read) && relevant cu su a)
      = store.filter (fun m => relevant cu su m && (m.receiver_id == cu && !m.read)) :=
    List.filter_congr (fun x _ => Bool.and_comm _ _)
  rw [h2] at h1
  exact h1

/-- C6: on initial open the client fetches the pair's full history ordered by
creation timestamp ascending, and issues a read-flag update for exactly the
fetched messages addressed to the current user and still unread: the update
ids are a permutation of those messages' ids, after the update no pair
message addressed to the current user remains unread, and when the current
user has n such unread messages the update covers exactly n ids. -/
theorem c6_fetch_then_mark_read (cu su : Nat) (store : List Message) :
    List.Sorted leCreated (fetchVisible cu su store)
    ∧ List.Perm (fetchUpdateIds cu su store)
        ((store.filter (fun m => relevant cu su m && (m.receiver_id == cu && !m.read))).map
          (fun m => m.id))
    ∧ (markRead (fetchUpdateIds cu su store) store).filter
        (fun m => relevant cu su m && (m.receiver_id == cu && !m.read)) = []
    ∧ (fetchUpdateIds cu su store).length
        = (store.filter (fun m => relevant cu su m && (m.receiver_id == cu && !m.read))).length := by
  refine ⟨sorted_sortAsc _, fetchUpdateIds_perm cu su store, ?_, ?_⟩
  · refine List.filter_eq_nil_iff.mpr ?_
    intro m' hm'
    rcases List.mem_map.mp hm' with ⟨m, hmst, rfl⟩
    by_cases hcm : m.id ∈ fetchUpdateIds cu su store
    · simp [hcm]
    · simp [hcm]
      intro hrel hrecv
      by_cases hread : m.read = true
      · exact hread
      · exfalso
        have hread' : m.read = false := by simpa using hread
        exact hcm (mem_fetchUpdateIds cu su store m hmst hrel
          (by simp [hrecv, hread']))
  · have := (fetchUpdateIds_perm cu su store).length_eq
    rw [this, List.length_map]

/-- A message matching the pair {cu, c} in either direction in particular
involves cu. -/
theorem relevant_involvesMe (cu c : Nat) (m : Message)
    (h : relevant cu c m = true) : involvesMe cu m = true := by
  simp [relevant] at h
  rcases h with ⟨hs, _⟩ | ⟨_, hr⟩
  · simp [involvesMe, hs]
  · simp [involvesMe, hr]

/-- The `userMessages` of `fetchChats` are, up to order, exactly the store's
messages of the pair {cu, c}. -/
theorem userMessages_perm (cu c : Nat) (store : List Message) :
    List.Perm (userMessages cu c store) (store.filter (relevant cu c)) := by
  unfold userMessages myMessages
  have h1 := (perm_sortDesc (store.filter (involvesMe cu))).filter (relevant cu c)
  rw [List.filter_filter] at h1
  have h2 : store.filter (fun a => relevant cu c a && involvesMe cu a)
      = store.filter (relevant cu c) := by
    refine List.filter_congr ?_
    intro x _
    by_cases hrel : relevant cu c x = true
    · simp [hrel, relevant_involvesMe cu c x hrel]
    · simp [hrel]
  rw [h2] at h1
  exact h1

/-- C7: for every counterpart, the conversation list surfaces as unreadCount
the number of the pair's messages addressed to the current user and unread,
and as lastMessage a message of the pair carrying the newest creation
timestamp among the pair's messages; a lastMessage exists whenever the pair
has messages. -/
theorem c7_conversation_list (cu c : Nat) (store : List Message) :
    unreadCount cu c store
      = (store.filter (fun m => relevant cu c m && (m.receiver_id == cu && !m.read))).length
    ∧ (∀ m, lastMessage cu c store = some m →
        m ∈ store ∧ relevant cu c m = true
          ∧ ∀ x ∈ store, relevant cu c x = true → x.created_at ≤ m.created_at)
    ∧ (store.filter (relevant cu c) ≠ [] → ∃ m, lastMessage cu c store = some m) := by
  refine ⟨?_, ?_, ?_⟩
  · have hp := (userMessages_perm cu c store).filter
      (fun m => m.receiver_id == cu && !m.read)
    have hlen := hp.length_eq
    unfold unreadCount unreadForMe
    rw [hlen, List.filter_filter]
    exact congrArg List.length (List.filter_congr (fun x _ => Bool.and_comm _ _))
  · intro m hm
    unfold lastMessage userMessages myMessages at hm
    obtain ⟨hmem, hrel, hmax⟩ :=
      head_filter_sortedDesc (relevant cu c)
        (sorted_sortDesc (store.filter (involvesMe cu))) hm
    have hmem' : m ∈ store.filter (involvesMe cu) :=
      (perm_sortDesc _).mem_iff.mp hmem
    refine ⟨(List.mem_filter.mp hmem').1, hrel, ?_⟩
    intro x hx hrx
    have hxmem : x ∈ sortDesc (store.filter (involvesMe cu)) :=
      (perm_sortDesc _).mem_iff.mpr
        (List.mem_filter.mpr ⟨hx, relevant_involvesMe cu c x hrx⟩)
    exact hmax x hxmem hrx
  · intro hne
    have hlen := (userMessages_perm cu c store).length_eq
    rcases hu : userMessages cu c store with _ | ⟨a, t⟩
    · rw [hu] at hlen
      exact absurd (List.length_eq_zero.mp hlen.symm) hne
    · exact ⟨a, by unfold lastMessage; rw [hu]; rfl⟩

theorem c7_conversation_list_witness :
    (lastMessage 1 2 [c2_m1, c2_m2, mX] = some c2_m2
      ∧ [c2_m1, c2_m2, mX].filter (relevant 1 2) ≠ [])
    ∧ (c2_m2 ∈ [c2_m1, c2_m2, mX] ∧ relevant 1 2 c2_m2 = true
        ∧ ∀ x ∈ [c2_m1, c2_m2, mX], relevant 1 2 x = true →
            x.created_at ≤ c2_m2.created_at)
    ∧ (∃ m, lastMessage 1 2 [c2_m1, c2_m2, mX] = some m) :=
  ⟨⟨by decide, by decide⟩,
   (c7_conversation_list 1 2 [c2_m1, c2_m2, mX]).2.1 c2_m2 (by decide),
   (c7_conversation_list 1 2 [c2_m1, c2_m2, mX]).2.2 (by decide)⟩

/-- C8: a selected file whose MIME type is not an image type or whose size
exceeds the 5 MiB ceiling is rejected locally — a notice is surfaced and no
backend call at all is issued; a valid image whose upload succeeds yields
exactly the upload call followed by a create carrying the image reference and
no textual body. -/
theorem c8_upload_validation (cu su now : Nat) (f : UploadFile) (uerr : Bool)
    (purl : String) :
    ((mimeMain f.ftype ≠ "image" ∨ f.size > 5 * 1024 * 1024) →
       (handleImageUpload cu su now f uerr purl).1 = []
         ∧ (handleImageUpload cu su now f uerr purl).2 ≠ [])
    ∧ (mimeMain f.ftype = "image" → f.size ≤ 5 * 1024 * 1024 → uerr = false →
       purl ≠ "" →
       (handleImageUpload cu su now f uerr purl).1
         = [BackendCall.uploadImage (uploadPath cu now f),
            BackendCall.createMessage
              { sender_id := cu, receiver_id := su,
                content := none, image_url := some purl }]) := by
  constructor
  · intro h
    rcases h with h | h
    · constructor <;> simp [handleImageUpload, h]
    · by_cases ht : mimeMain f.ftype = "image"
      · constructor <;> simp [handleImageUpload, ht, h]
      · constructor <;> simp [handleImageUpload, ht]
  · intro ht hs hu hp
    have hs' : ¬ (f.size > 5 * 1024 * 1024) := Nat.not_lt.mpr hs
    simp [handleImageUpload, ht, hs', hu, hp]

theorem c8_upload_validation_witness :
    ((mimeMain f6mb.ftype ≠ "image" ∨ f6mb.size > 5 * 1024 * 1024)
      ∧ ((handleImageUpload 1 2 10 f6mb false "u").1 = []
          ∧ (handleImageUpload 1 2 10 f6mb false "u").2 ≠ []))
    ∧ ((mimeMain f2mb.ftype = "image" ∧ f2mb.size ≤ 5 * 1024 * 1024
          ∧ ("u" : String) ≠ "")
      ∧ (handleImageUpload 1 2 10 f2mb false "u").1
          = [BackendCall.uploadImage (uploadPath 1 10 f2mb),
             BackendCall.createMessage
               { sender_id := 1, receiver_id := 2,
                 content := none, image_url := some "u" }]) :=
  ⟨⟨by decide, (c8_upload_validation 1 2 10 f6mb false "u").1 (by decide)⟩,
   ⟨⟨by decide, by decide, by decide⟩,
    (c8_upload_validation 1 2 10 f2mb false "u").2 (by decide) (by decide) rfl
      (by decide)⟩⟩

theorem c2_order_preservation_witness :
    (List.Sorted leCreated [c2_m1] ∧ ∀ x ∈ [c2_m1], x.created_at ≤ c2_m2.created_at)
    ∧ List.Sorted leCreated (handleInsert 1 2 [c2_m1] c2_m2) :=
  ⟨⟨by decide, by decide⟩,
   (c2_order_preservation 1 2 [] [c2_m1] c2_m2).2 (by decide) (by decide)⟩
